import Mathlib

/-!
# Verification of the GitLab MCP server's request/error-normalization core

This development shallowly embeds the request execution and error-normalization
layer of the `gitlab_mcp` repository (its configuration store in
`src/server/config.py` and representative tool façades from
`src/server/mcp_tools/`) and proves properties of the embedded definitions.

Modelling conventions:
* JSON values are the inductive `JValue`; a Python dict is `JValue.jobj` with
  fields in insertion order.
* A decoded-or-raw HTTP body is an `HttpResponse` carrying the status code,
  the result of attempting `response.json()` (`none` when the body does not
  decode), and the raw `text`.
* The outcome of one `requests`/`httpx` call is an `Outcome`: either a
  transport error (no response obtained) or a response.
* Python exception flow is made explicit with `Except PyExn`; `try/except`
  blocks become `pyTry` with a list of (class-test, handler) pairs, matching
  Python's first-match semantics, and an exception raised inside a handler
  propagates outward.
* `str(e)` for an `HTTPError` is modelled by `strHTTPError` as a function of
  the response; no claim below depends on its exact text.
-/

/-- JSON values, used both for decoded response bodies and for the
dictionaries the tool façades return. -/
inductive JValue where
  | jnull : JValue
  | jbool : Bool → JValue
  | jnum : Int → JValue
  | jstr : String → JValue
  | jarr : List JValue → JValue
  | jobj : List (String × JValue) → JValue

open JValue

/-- Key membership in an association list (a Python dict's items). -/
def hasKeyL (xs : List (String × JValue)) (k : String) : Bool :=
  xs.any (fun p => p.1 == k)

/-- Key membership in a JSON value: true only for objects holding the key. -/
def hasKeyJ : JValue → String → Bool
  | jobj fields, k => hasKeyL fields k
  | _, _ => false

/-- Python runtime values as they appear in query-parameter maps
(`requests` accepts heterogeneous values there). -/
inductive PyVal where
  | pyNone : PyVal
  | pyBool : Bool → PyVal
  | pyInt : Int → PyVal
  | pyStr : String → PyVal
deriving DecidableEq

open PyVal

/-- Python truthiness of an optional string argument (`if arg:`):
false for `None` and for the empty string. -/
def truthyOptStr : Option String → Bool
  | none => false
  | some s => s != ""

/-- Model of `str(b).lower()` for a Python bool. -/
def pyBoolLower (b : Bool) : String := if b then "true" else "false"

/-- An HTTP response as the façades observe it: status code, the result of
attempting to decode the body as JSON (`none` = `json.JSONDecodeError`), and
the raw body text. -/
structure HttpResponse where
  status : Nat
  jsonBody : Option JValue
  text : String

/-- Outcome of a single HTTP call: either no response at all (DNS, connect,
timeout — a `requests.exceptions.RequestException` carrying a message) or a
response. -/
inductive Outcome where
  | transportError : String → Outcome
  | response : HttpResponse → Outcome

open Outcome

/-- The Python exceptions that occur in the embedded code, flattened into one
type; class-membership of each constructor is given by the `catches*`
predicates below. -/
inductive PyExn where
  | httpError : HttpResponse → PyExn
  | jsonDecodeError : PyExn
  | requestException : String → PyExn
  | httpxError : Option HttpResponse → String → PyExn
  | valueError : String → PyExn
  | keyError : String → PyExn
  | typeError : String → PyExn
  | attributeError : String → PyExn
  | exception : String → PyExn

open PyExn

/-- Class test for `except requests.exceptions.HTTPError`. -/
def catchesHTTPError : PyExn → Bool
  | httpError _ => true
  | _ => false

/-- Class test for `except requests.exceptions.RequestException`; `HTTPError` and the
`requests` flavour of `JSONDecodeError` are subclasses. -/
def catchesRequestException : PyExn → Bool
  | httpError _ => true
  | jsonDecodeError => true
  | requestException _ => true
  | _ => false

/-- Class test for `except json.JSONDecodeError`. -/
def catchesJSONDecodeError : PyExn → Bool
  | jsonDecodeError => true
  | _ => false

/-- Class test for `except httpx.HTTPError` (base of both status and transport errors). -/
def catchesHttpxError : PyExn → Bool
  | httpxError _ _ => true
  | _ => false

/-- Class test for `except ValueError`; `json.JSONDecodeError` is a `ValueError` subclass. -/
def catchesValueError : PyExn → Bool
  | valueError _ => true
  | jsonDecodeError => true
  | _ => false

/-- Class test for `except KeyError`. -/
def catchesKeyError : PyExn → Bool
  | keyError _ => true
  | _ => false

/-- Class test for `except Exception` (catches every exception modelled here). -/
def catchesException : PyExn → Bool := fun _ => true

/-- A `try` block: run the body; on an exception, dispatch to the first
handler whose class test matches, re-raising when none does. An exception
raised inside a handler propagates (it is not offered to sibling handlers). -/
def pyTry (body : Except PyExn JValue)
    (handlers : List ((PyExn → Bool) × (PyExn → Except PyExn JValue))) :
    Except PyExn JValue :=
  match body with
  | .ok v => .ok v
  | .error e =>
    match handlers.find? (fun h => h.1 e) with
    | some h => h.2 e
    | none => .error e

/-- Model of `requests.get`/`post`/`put`/`delete`: a transport failure raises a
`RequestException`, otherwise the response is returned (bad status codes do
not raise here). -/
def requestsCall : Outcome → Except PyExn HttpResponse
  | transportError msg => .error (requestException msg)
  | response r => .ok r

/-- Model of `response.raise_for_status()`: raises `HTTPError` exactly for status
codes in `[400, 600)`. -/
def raiseForStatus (r : HttpResponse) : Except PyExn Unit :=
  if 400 ≤ r.status ∧ r.status < 600 then .error (httpError r) else .ok ()

/-- Model of `response.json()`: the decoded body, or a `JSONDecodeError`. -/
def responseJson (r : HttpResponse) : Except PyExn JValue :=
  match r.jsonBody with
  | some j => .ok j
  | none => .error jsonDecodeError

/-- Model of `str(e)` for a `requests` `HTTPError` (a short status summary;
only its presence, not its text, matters to any property below). -/
def strHTTPError (r : HttpResponse) : String :=
  "HTTP Error " ++ toString r.status

/-- The message `str(e)` of the exception caught by a
`RequestException` handler. -/
def exnStr : PyExn → String
  | requestException m => m
  | jsonDecodeError => "Expecting value: line 1 column 1 (char 0)"
  | httpError r => strHTTPError r
  | httpxError _ m => m
  | valueError m => m
  | keyError k => k
  | typeError m => m
  | attributeError m => m
  | exception m => m

/-- The `e.response` of an exception, when it carries one. -/
def exnResponse : PyExn → Option HttpResponse
  | httpError r => some r
  | httpxError r _ => r
  | _ => none

/-- Model of Python `d.get(k, default)`: the stored value or the default on
a dict, an `AttributeError` on any other value, which has no `.get` method
(the exception message is abbreviated; nothing below depends on it). -/
def jGetDefault (j : JValue) (k : String) (d : JValue) : Except PyExn JValue :=
  match j with
  | jobj fields =>
    match fields.find? (fun p => p.1 == k) with
    | some p => .ok p.2
    | none => .ok d
  | _ => .error (attributeError "object has no attribute get")

/-- Model of Python `.lower()`: lowercases a string, raising
`AttributeError` on any non-string value (message abbreviated). -/
def pyLower : JValue → Except PyExn String
  | jstr s => .ok s.toLower
  | _ => .error (attributeError "object has no attribute lower")

/-! ## Configuration store (`src/server/config.py`) -/

/-- The process-wide `_config` dictionary: `api_url` and `token`, both
defaulting to the empty string. -/
structure Config where
  api_url : String
  token : String
deriving DecidableEq

/-- Accessor `get_gitlab_api()`. -/
def get_gitlab_api (c : Config) : String := c.api_url

/-- Accessor `get_gitlab_token()`. -/
def get_gitlab_token (c : Config) : String := c.token

/-- Setter `set_gitlab_config(api_url=None, token=None)`: each field is overwritten
only when the corresponding argument is truthy (not `None` and non-empty). -/
def set_gitlab_config (api_url token : Option String) (c : Config) : Config :=
  let c1 := if truthyOptStr api_url then { c with api_url := api_url.getD "" } else c
  if truthyOptStr token then { c1 with token := token.getD "" } else c1

/-- Header builder `get_headers()`: `Accept` always, `PRIVATE-TOKEN` only when the stored
token is truthy. -/
def get_headers (c : Config) : List (String × String) :=
  let headers := [("Accept", "application/json")]
  if c.token != "" then headers ++ [("PRIVATE-TOKEN", c.token)] else headers

/-- Predicate `is_configured()`. -/
def is_configured (c : Config) : Bool :=
  (c.api_url != "") && (c.token != "")

/-- The default value of `configure_gitlab`'s `api_url` parameter. -/
def configure_gitlab_default_api_url : String := "https://gitlab.com/api/v4"

/-- Tool `configure_gitlab(api_url, token)`: rejects a falsy token with an error
dictionary (leaving the store untouched), otherwise writes both fields via
`set_gitlab_config` and reports success. Returns (new state, result). -/
def configure_gitlab (api_url : String) (token : Option String) (c : Config) :
    Config × JValue :=
  if ¬ (truthyOptStr token = true) then
    (c, jobj [("error", jstr "Token is required"),
      ("message", jstr ("Please provide your GitLab Personal Access Token. " ++
        "Create one at: https://gitlab.com/-/user_settings/personal_access_tokens"))])
  else
    let c' := set_gitlab_config (some api_url) token c
    (c', jobj [("status", jstr "configured"),
      ("api_url", jstr api_url),
      ("message", jstr "GitLab credentials configured successfully. You can now use GitLab tools.")])

/-- Tool `check_gitlab_config()`: reports whether the store is configured and
whether a token is set, never the token value itself. -/
def check_gitlab_config (c : Config) : JValue :=
  jobj [("configured", jbool (is_configured c)),
    ("api_url", jstr (if c.api_url != "" then c.api_url else "(not set)")),
    ("token_set", jbool (c.token != "")),
    ("message", jstr (if is_configured c then "Ready to use GitLab tools."
      else "Please run configure_gitlab with your token first."))]

/-! ## Shared builders for query-parameter maps and JSON bodies

The façades add an optional argument to a query/body map either with an
is-not-None test or with a truthiness test, and encode booleans either as
`str(value).lower()` or natively; one builder per combination. -/

/-- Query entry for an is-not-None optional string. -/
def queryOptStr (k : String) : Option String → List (String × PyVal)
  | none => []
  | some s => [(k, pyStr s)]

/-- Query entry for an is-not-None optional bool, encoded `str(value).lower()`. -/
def queryOptBoolAsStr (k : String) : Option Bool → List (String × PyVal)
  | none => []
  | some b => [(k, pyStr (pyBoolLower b))]

/-- Query entry for an is-not-None optional int. -/
def queryOptInt (k : String) : Option Int → List (String × PyVal)
  | none => []
  | some n => [(k, pyInt n)]

/-- Body entry for an is-not-None optional string. -/
def bodyOptStr (k : String) : Option String → List (String × JValue)
  | none => []
  | some s => [(k, jstr s)]

/-- Body entry for an is-not-None optional bool, kept as a native boolean. -/
def bodyOptBool (k : String) : Option Bool → List (String × JValue)
  | none => []
  | some b => [(k, jbool b)]

/-- Body entry for an is-not-None optional bool, encoded `str(value).lower()`. -/
def bodyOptBoolAsStr (k : String) : Option Bool → List (String × JValue)
  | none => []
  | some b => [(k, jstr (pyBoolLower b))]

/-- Body entry for an is-not-None optional int. -/
def bodyOptInt (k : String) : Option Int → List (String × JValue)
  | none => []
  | some n => [(k, jnum n)]

/-- Body entry for an is-not-None optional list of ints. -/
def bodyOptIntList (k : String) : Option (List Int) → List (String × JValue)
  | none => []
  | some xs => [(k, jarr (xs.map jnum))]

/-- Body entry for a truthiness-tested optional string (`if arg:`). -/
def bodyTruthyStr (k : String) (v : Option String) : List (String × JValue) :=
  if truthyOptStr v then [(k, jstr (v.getD ""))] else []

/-- JSON value of an `Optional[str]` placed unconditionally in a body. -/
def jOfOptStr : Option String → JValue
  | none => jnull
  | some s => jstr s

/-- JSON value of an `Optional[bool]` placed unconditionally in a body. -/
def jOfOptBool : Option Bool → JValue
  | none => jnull
  | some b => jbool b

/-! ## `urllib.parse.quote_plus`

Modelled at the byte level (Python first UTF-8-encodes the string, then
encodes byte by byte): bytes in the always-safe set (ASCII letters, digits,
`_`, `.`, `-`, `~`) pass through, a space becomes `+`, and every other byte
becomes `%` followed by two uppercase hex digits. `quote_plus` is called with
its default `safe=''`, so `/` is not safe. -/

/-- Bytes `urllib.parse.quote` never encodes (its `always_safe` set). -/
def isAlwaysSafeByte (b : Nat) : Bool :=
  (65 ≤ b && b ≤ 90) || (97 ≤ b && b ≤ 122) || (48 ≤ b && b ≤ 57) ||
    b == 95 || b == 46 || b == 45 || b == 126

/-- Uppercase hex digit for a value below 16. -/
def hexDigitChar (n : Nat) : Char :=
  if n < 10 then Char.ofNat (48 + n) else Char.ofNat (55 + n)

/-- Percent-encoding of one byte, `%` plus two uppercase hex digits. -/
def percentEncodeByte (b : Nat) : String :=
  String.mk ['%', hexDigitChar (b / 16 % 16), hexDigitChar (b % 16)]

/-- Encoding of one byte under `quote_plus` with `safe=''`. -/
def quotePlusByte (b : Nat) : String :=
  if isAlwaysSafeByte b then String.mk [Char.ofNat b]
  else if b == 32 then "+"
  else percentEncodeByte b

/-- Model of `urllib.parse.quote_plus` on the byte sequence of the input. -/
def pyQuotePlus (bs : List Nat) : String :=
  String.join (bs.map quotePlusByte)

/-- Byte sequence of an ASCII string (its UTF-8 encoding). -/
def asciiBytes (s : String) : List Nat :=
  s.data.map Char.toNat

/-! ## Branch tools (`src/server/mcp_tools/branch_tools.py`) -/

/-- Request URL built by `gitlab_list_branches`. -/
def gitlab_list_branches_url (c : Config) (project_id : String) : String :=
  get_gitlab_api c ++ "/projects/" ++ project_id ++ "/repository/branches"

/-- Headers built by `gitlab_list_branches`: the `PRIVATE-TOKEN` entry is
written unconditionally, with whatever token is stored (possibly empty). -/
def gitlab_list_branches_headers (c : Config) : List (String × String) :=
  [("PRIVATE-TOKEN", get_gitlab_token c)]

/-- Query parameters built by `gitlab_list_branches`: `regex` wins over
`search`, each included only when truthy. -/
def gitlab_list_branches_params (regex search : Option String) :
    List (String × PyVal) :=
  if truthyOptStr regex then [("regex", pyStr (regex.getD ""))]
  else if truthyOptStr search then [("search", pyStr (search.getD ""))]
  else []

/-- Response shaping of `gitlab_list_branches`: decoded body on 2xx; on
`HTTPError` a `{error, details}` dictionary with JSON details falling back to
raw text; on any other `RequestException` an `{error}` dictionary. -/
def gitlab_list_branches_result (net : Outcome) : Except PyExn JValue :=
  pyTry (do
      let r ← requestsCall net
      let _ ← raiseForStatus r
      responseJson r)
    [(catchesHTTPError, fun e =>
        match exnResponse e with
        | some r =>
          pyTry (do
              let error_details ← responseJson r
              pure (jobj [("error", jstr (strHTTPError r)), ("details", error_details)]))
            [(catchesJSONDecodeError, fun _ =>
                .ok (jobj [("error", jstr (strHTTPError r)), ("details", jstr r.text)]))]
        | none => .error e),
     (catchesRequestException, fun e =>
        .ok (jobj [("error", jstr ("Network/Request Error: " ++ exnStr e))]))]

/-- Response shaping of `gitlab_delete_branch`: a synthesized confirmation
string on 204, a `{warning, text}` dictionary on any other success code, and
the standard error dictionaries otherwise. -/
def gitlab_delete_branch_result (branch_name : String) (net : Outcome) :
    Except PyExn JValue :=
  pyTry (do
      let r ← requestsCall net
      let _ ← raiseForStatus r
      if r.status == 204 then
        pure (jstr ("[GITLAB DELETE BRANCH] Branch \x27" ++ branch_name ++
          "\x27 deleted successfully (HTTP 204 No Content)."))
      else
        pure (jobj [("warning", jstr ("Branch deletion returned unexpected status code " ++
          toString r.status ++ ".")), ("text", jstr r.text)]))
    [(catchesHTTPError, fun e =>
        match exnResponse e with
        | some r =>
          pyTry (do
              let error_details ← responseJson r
              pure (jobj [("error", jstr (strHTTPError r)), ("details", error_details)]))
            [(catchesJSONDecodeError, fun _ =>
                .ok (jobj [("error", jstr (strHTTPError r)), ("details", jstr r.text)]))]
        | none => .error e),
     (catchesRequestException, fun e =>
        .ok (jobj [("error", jstr ("Network/Request Error: " ++ exnStr e))]))]

/-! ## File tools (`src/server/mcp_tools/file_tools.py`) -/

/-- Request URL built by `create_gitlab_file`: the file path is
`quote_plus`-encoded, then interpolated as one path segment. -/
def create_gitlab_file_api_url (c : Config) (project_id : String)
    (file_path : List Nat) : String :=
  get_gitlab_api c ++ "/projects/" ++ project_id ++ "/repository/files/" ++
    pyQuotePlus file_path

/-- Headers built by `create_gitlab_file` (and the other file write tools):
`PRIVATE-TOKEN` unconditionally, plus `Content-Type`. -/
def create_gitlab_file_headers (c : Config) : List (String × String) :=
  [("PRIVATE-TOKEN", get_gitlab_token c), ("Content-Type", "application/json")]

/-- Python default of `create_gitlab_file`'s `encoding` parameter. -/
def create_gitlab_file_default_encoding : Option String := some "text"

/-- Python default of `create_gitlab_file`'s `execute_filemode` parameter. -/
def create_gitlab_file_default_execute_filemode : Option Bool := some false

/-- JSON body built by `create_gitlab_file`: `branch`, `commit_message`,
`content`, `encoding` and `execute_filemode` are written unconditionally
(the latter two with their argument values even when `None`); the remaining
optionals are added under a truthiness test. -/
def create_gitlab_file_data (branch commit_message content : String)
    (author_email author_name : Option String) (encoding : Option String)
    (execute_filemode : Option Bool) (start_branch : Option String) :
    List (String × JValue) :=
  [("branch", jstr branch), ("commit_message", jstr commit_message),
    ("content", jstr content), ("encoding", jOfOptStr encoding),
    ("execute_filemode", jOfOptBool execute_filemode)] ++
  bodyTruthyStr "author_email" author_email ++
  bodyTruthyStr "author_name" author_name ++
  bodyTruthyStr "start_branch" start_branch

/-- Response shaping of `create_gitlab_file`, identical in structure to
`gitlab_list_branches`. -/
def create_gitlab_file_result (net : Outcome) : Except PyExn JValue :=
  pyTry (do
      let r ← requestsCall net
      let _ ← raiseForStatus r
      responseJson r)
    [(catchesHTTPError, fun e =>
        match exnResponse e with
        | some r =>
          pyTry (do
              let error_details ← responseJson r
              pure (jobj [("error", jstr (strHTTPError r)), ("details", error_details)]))
            [(catchesJSONDecodeError, fun _ =>
                .ok (jobj [("error", jstr (strHTTPError r)), ("details", jstr r.text)]))]
        | none => .error e),
     (catchesRequestException, fun e =>
        .ok (jobj [("error", jstr ("Network/Request Error: " ++ exnStr e))]))]

/-- Response shaping of `delete_gitlab_file`: a synthesized `{status,
message}` dictionary on 204 (no decode of the body), the decoded body on any
other success code, and the standard error dictionaries otherwise. -/
def delete_gitlab_file_result (net : Outcome) : Except PyExn JValue :=
  pyTry (do
      let r ← requestsCall net
      let _ ← raiseForStatus r
      if r.status == 204 then
        pure (jobj [("status", jstr "success"),
          ("message", jstr "File deleted successfully (No Content returned)")])
      else
        responseJson r)
    [(catchesHTTPError, fun e =>
        match exnResponse e with
        | some r =>
          pyTry (do
              let error_details ← responseJson r
              pure (jobj [("error", jstr (strHTTPError r)), ("details", error_details)]))
            [(catchesJSONDecodeError, fun _ =>
                .ok (jobj [("error", jstr (strHTTPError r)), ("details", jstr r.text)]))]
        | none => .error e),
     (catchesRequestException, fun e =>
        .ok (jobj [("error", jstr ("Network/Request Error: " ++ exnStr e))]))]

/-- Python default of `get_raw_gitlab_file`'s `lfs` parameter. -/
def get_raw_gitlab_file_default_lfs : Bool := false

/-- Query parameters built by `get_raw_gitlab_file`: `ref` and the raw
boolean `lfs`, placed in the map without any string conversion. -/
def get_raw_gitlab_file_params (ref : String) (lfs : Bool) :
    List (String × PyVal) :=
  [("ref", pyStr ref), ("lfs", pyBool lfs)]

/-- Response shaping of `get_raw_gitlab_file`: the raw text on success, the
standard error dictionaries otherwise. -/
def get_raw_gitlab_file_result (net : Outcome) : Except PyExn JValue :=
  pyTry (do
      let r ← requestsCall net
      let _ ← raiseForStatus r
      pure (jstr r.text))
    [(catchesHTTPError, fun e =>
        match exnResponse e with
        | some r =>
          pyTry (do
              let error_details ← responseJson r
              pure (jobj [("error", jstr (strHTTPError r)), ("details", error_details)]))
            [(catchesJSONDecodeError, fun _ =>
                .ok (jobj [("error", jstr (strHTTPError r)), ("details", jstr r.text)]))]
        | none => .error e),
     (catchesRequestException, fun e =>
        .ok (jobj [("error", jstr ("Network/Request Error: " ++ exnStr e))]))]

/-- Request URL built by `get_gitlab_file_metadata_and_content`: the file
path is `quote_plus`-encoded, then interpolated as one path segment. -/
def get_gitlab_file_metadata_and_content_api_url (c : Config)
    (project_id : String) (file_path : List Nat) : String :=
  get_gitlab_api c ++ "/projects/" ++ project_id ++ "/repository/files/" ++
    pyQuotePlus file_path

/-! ## Commit tools (`src/server/mcp_tools/commit_tools.py`) -/

/-- Headers built by `list_gitlab_repository_commits`: an empty map given
`PRIVATE-TOKEN` only when the stored token is truthy; no `Accept` entry. -/
def list_gitlab_repository_commits_headers (c : Config) : List (String × String) :=
  if get_gitlab_token c != "" then [("PRIVATE-TOKEN", get_gitlab_token c)] else []

/-- Query parameters built by `list_gitlab_repository_commits`, in the order
of its `api_params_map`: is-not-None optionals only, booleans as
`str(value).lower()` strings. -/
def list_gitlab_repository_commits_params (all_commits : Option Bool)
    (author : Option String) (first_parent : Option Bool)
    (order path ref_name since : Option String) (trailers : Option Bool)
    (until_arg : Option String) (with_stats : Option Bool)
    (per_page page : Option Int) : List (String × PyVal) :=
  queryOptBoolAsStr "all" all_commits ++
  queryOptStr "author" author ++
  queryOptBoolAsStr "first_parent" first_parent ++
  queryOptStr "order" order ++
  queryOptStr "path" path ++
  queryOptStr "ref_name" ref_name ++
  queryOptStr "since" since ++
  queryOptBoolAsStr "trailers" trailers ++
  queryOptStr "until" until_arg ++
  queryOptBoolAsStr "with_stats" with_stats ++
  queryOptInt "per_page" per_page ++
  queryOptInt "page" page

/-- Response shaping of `list_gitlab_repository_commits`, identical in
structure to `gitlab_list_branches`. -/
def list_gitlab_repository_commits_result (net : Outcome) : Except PyExn JValue :=
  pyTry (do
      let r ← requestsCall net
      let _ ← raiseForStatus r
      responseJson r)
    [(catchesHTTPError, fun e =>
        match exnResponse e with
        | some r =>
          pyTry (do
              let error_details ← responseJson r
              pure (jobj [("error", jstr (strHTTPError r)), ("details", error_details)]))
            [(catchesJSONDecodeError, fun _ =>
                .ok (jobj [("error", jstr (strHTTPError r)), ("details", jstr r.text)]))]
        | none => .error e),
     (catchesRequestException, fun e =>
        .ok (jobj [("error", jstr ("Network/Request Error: " ++ exnStr e))]))]

/-- Response shaping of `get_gitlab_commit_signature`: the standard shape,
except that inside the `HTTPError` handler a 404 evaluates
`error_details.get("message", "").lower()` before comparing against the
unsigned-commit message — an expression that raises `AttributeError` when
the decoded body is not an object or its `message` value is not a string,
an exception the surrounding `except json.JSONDecodeError` does not catch,
so it escapes the façade. -/
def get_gitlab_commit_signature_result (net : Outcome) : Except PyExn JValue :=
  pyTry (do
      let r ← requestsCall net
      let _ ← raiseForStatus r
      responseJson r)
    [(catchesHTTPError, fun e =>
        match exnResponse e with
        | some r =>
          pyTry (do
              let error_details ← responseJson r
              if r.status == 404 then do
                let msgv ← jGetDefault error_details "message" (jstr "")
                let low ← pyLower msgv
                if low == "404 gpg signature not found" then
                  pure (jobj [("error",
                    jstr "Commit signature not found (Commit is likely unsigned)."),
                    ("details", error_details)])
                else
                  pure (jobj [("error", jstr (strHTTPError r)),
                    ("details", error_details)])
              else
                pure (jobj [("error", jstr (strHTTPError r)),
                  ("details", error_details)]))
            [(catchesJSONDecodeError, fun _ =>
                .ok (jobj [("error", jstr (strHTTPError r)), ("details", jstr r.text)]))]
        | none => .error e),
     (catchesRequestException, fun e =>
        .ok (jobj [("error", jstr ("Network/Request Error: " ++ exnStr e))]))]

/-- Headers built by `create_gitlab_commit`: `Content-Type` plus
`PRIVATE-TOKEN` only when the stored token is truthy. -/
def create_gitlab_commit_headers (c : Config) : List (String × String) :=
  ("Content-Type", "application/json") ::
    (if get_gitlab_token c != "" then [("PRIVATE-TOKEN", get_gitlab_token c)] else [])

/-- JSON body built by `create_gitlab_commit`: required fields first, then
the is-not-None optionals in `optional_params` order — note booleans are
converted to lowercase strings even though this map is sent as a JSON
body. -/
def create_gitlab_commit_payload (branch commit_message : String)
    (actions : List JValue) (author_email author_name : Option String)
    (force : Option Bool) (start_branch start_project start_sha : Option String)
    (stats : Option Bool) : List (String × JValue) :=
  [("branch", jstr branch), ("commit_message", jstr commit_message),
    ("actions", jarr actions)] ++
  bodyOptStr "author_email" author_email ++
  bodyOptStr "author_name" author_name ++
  bodyOptBoolAsStr "force" force ++
  bodyOptStr "start_branch" start_branch ++
  bodyOptStr "start_project" start_project ++
  bodyOptStr "start_sha" start_sha ++
  bodyOptBoolAsStr "stats" stats

/-! ## Issue tools (`src/server/mcp_tools/issue_tools.py`) -/

/-- JSON body built by `edit_issue`: every optional argument is added under
an is-not-None test, in source order; strings, booleans, ints and int lists
keep their native JSON encodings. -/
def edit_issue_data (add_labels : Option String)
    (assignee_ids : Option (List Int)) (confidential : Option Bool)
    (description : Option String) (discussion_locked : Option Bool)
    (due_date : Option String) (epic_id : Option Int)
    (issue_type labels : Option String) (milestone_id : Option Int)
    (remove_labels state_event title updated_at : Option String)
    (weight : Option Int) : List (String × JValue) :=
  bodyOptStr "add_labels" add_labels ++
  bodyOptIntList "assignee_ids" assignee_ids ++
  bodyOptBool "confidential" confidential ++
  bodyOptStr "description" description ++
  bodyOptBool "discussion_locked" discussion_locked ++
  bodyOptStr "due_date" due_date ++
  bodyOptInt "epic_id" epic_id ++
  bodyOptStr "issue_type" issue_type ++
  bodyOptStr "labels" labels ++
  bodyOptInt "milestone_id" milestone_id ++
  bodyOptStr "remove_labels" remove_labels ++
  bodyOptStr "state_event" state_event ++
  bodyOptStr "title" title ++
  bodyOptStr "updated_at" updated_at ++
  bodyOptInt "weight" weight

/-! ## Repository tools (`src/server/mcp_tools/repo_tools.py`) -/

/-- Request URL built by `update_gitlab_submodule_reference`: the submodule
path is interpolated into the URL without any encoding. -/
def update_gitlab_submodule_reference_api_url (c : Config)
    (project_id submodule_path : String) : String :=
  get_gitlab_api c ++ "/projects/" ++ project_id ++ "/repository/submodules/" ++
    submodule_path

/-- Model of an `httpx` client call: a transport failure raises a
`TransportError` (a subclass of `httpx.HTTPError`) carrying no response. -/
def httpxCall : Outcome → Except PyExn HttpResponse
  | transportError msg => .error (httpxError none msg)
  | response r => .ok r

/-- Model of `httpx` `response.raise_for_status()`: raises an
`HTTPStatusError` (a subclass of `httpx.HTTPError`) carrying the response. -/
def httpxRaiseForStatus (r : HttpResponse) : Except PyExn Unit :=
  if 400 ≤ r.status ∧ r.status < 600 then
    .error (httpxError (some r) (strHTTPError r))
  else .ok ()

/-- Model of the `reason_phrase` of an `httpx` response (a function of the
status; no property below depends on its text). -/
def httpxReasonPhrase (r : HttpResponse) : String :=
  "status " ++ toString r.status

/-- Display string of a JSON value under Python `str()` inside an f-string
(composite values abbreviated; no property below depends on them). -/
def pyStrOfJ : JValue → String
  | jstr s => s
  | jbool b => if b then "True" else "False"
  | jnum n => toString n
  | jnull => "None"
  | jarr _ => "[...]"
  | jobj _ => "\x7b...\x7d"

/-- Subscript access `data[k]`, raising `KeyError` when the key is missing
and `TypeError` on a non-object. -/
def jGetKey (j : JValue) (k : String) : Except PyExn JValue :=
  match j with
  | jobj fields =>
    match fields.find? (fun p => p.1 == k) with
    | some p => .ok p.2
    | none => .error (keyError k)
  | _ => .error (typeError "value is not subscriptable by string key")

/-- Python default of `create_repository`'s `visibility` parameter. -/
def create_repository_default_visibility : Option String := some "private"

/-- Python default of `create_repository`'s `initialize_with_readme`
parameter. -/
def create_repository_default_initialize_with_readme : Option Bool := some false

/-- JSON payload built by `create_repository` after filtering out `None`
values. -/
def create_repository_payload (name : String)
    (description visibility : Option String)
    (initialize_with_readme : Option Bool) : List (String × JValue) :=
  [("name", jstr name)] ++
  bodyOptStr "description" description ++
  bodyOptStr "visibility" visibility ++
  bodyOptBool "initialize_with_readme" initialize_with_readme

/-- Full control flow of the async `create_repository` façade: parameter
validation raises `ValueError`; specific 4xx statuses raise `Exception`
directly (then re-wrapped by the catch-all handler); every handler re-raises
a wrapped `Exception` instead of returning an error dictionary. On the
source's `if e.response:` test, an exception without a response selects the
network-error branch. -/
def create_repository_result (name : String)
    (description visibility : Option String)
    (initialize_with_readme : Option Bool) (net : Outcome) :
    Except PyExn JValue :=
  pyTry (do
      let _ ← (if name == "" then
          (.error (valueError "Repository name is required") : Except PyExn Unit)
        else .ok ())
      let _ ← (match visibility with
        | some v =>
          if v != "" && v != "private" && v != "internal" && v != "public" then
            (.error (valueError
              "Visibility must be \x27private\x27, \x27internal\x27, or \x27public\x27") :
              Except PyExn Unit)
          else .ok ()
        | none => .ok ())
      let _ := create_repository_payload name description visibility
        initialize_with_readme
      let r ← httpxCall net
      let _ ← (if r.status == 400 then do
          let error_detail ← responseJson r
          match error_detail with
          | jobj fields =>
            (match fields.find? (fun p => p.1 == "message") with
            | some p =>
              (.error (exception ("Bad Request - " ++ pyStrOfJ p.2)) : Except PyExn Unit)
            | none => .error (exception "Bad Request - invalid parameters provided"))
          | _ => .error (exception "Bad Request - invalid parameters provided")
        else if r.status == 401 then
          (.error (exception ("Authentication Failed - Please check that " ++
            "get_gitlab_token() environment variable is set correctly")) :
            Except PyExn Unit)
        else if r.status == 403 then
          .error (exception ("Access Denied - Your GitLab account doesn\x27t " ++
            "have permission to create projects"))
        else if r.status == 409 then
          .error (exception "Conflict - A repository with this name already exists")
        else .ok ())
      let _ ← httpxRaiseForStatus r
      let data ← responseJson r
      let idv ← jGetKey data "id"
      let namev ← jGetKey data "name"
      let pathv ← jGetKey data "path"
      let descv ← jGetDefault data "description" (jstr "")
      let visv ← jGetKey data "visibility"
      let readmev ← jGetDefault data "readme_url" jnull
      pure (jobj [("id", idv), ("name", namev), ("path", pathv),
        ("description", descv), ("visibility", visv),
        ("readme_url", readmev)]))
    [(catchesHttpxError, fun e =>
        match exnResponse e with
        | some r =>
          .error (exception ("GitLab API error " ++ toString r.status ++ ": " ++
            httpxReasonPhrase r))
        | none =>
          .error (exception ("Network error connecting to GitLab API: " ++ exnStr e))),
     (catchesValueError, fun e =>
        .error (exception ("Parameter validation error: " ++ exnStr e))),
     (catchesKeyError, fun e =>
        .error (exception ("Missing expected field in GitLab response: " ++ exnStr e))),
     (catchesException, fun e =>
        .error (exception ("Unexpected error during repository creation: " ++ exnStr e)))]

/-! ## Statement-support definitions -/

/-- Test whether a façade invocation returned a value to its caller (as
opposed to an exception escaping). -/
def isOkResult : Except PyExn JValue → Bool
  | .ok _ => true
  | .error _ => false

/-- Test whether a façade invocation returned a value containing an
`error` key. -/
def resultHasErrorKey : Except PyExn JValue → Bool
  | .ok v => hasKeyJ v "error"
  | .error _ => false

/-- Outcomes exhibiting at least one of the failure conditions of claim C1:
transport failure, a status that `raise_for_status` rejects, or an
undecodable body. -/
def anyFailureOutcome : Outcome → Bool
  | Outcome.transportError _ => true
  | Outcome.response r =>
    (decide (400 ≤ r.status) && decide (r.status < 600)) || r.jsonBody.isNone

/-- Outcomes exhibiting a transport failure or a status that
`raise_for_status` rejects (body decodability not considered). -/
def httpFailureOutcome : Outcome → Bool
  | Outcome.transportError _ => true
  | Outcome.response r => decide (400 ≤ r.status) && decide (r.status < 600)

/-- Reserved characters of RFC 3986 (gen-delims and sub-delims), as bytes. -/
def reservedBytes : List Nat :=
  [33, 35, 36, 38, 39, 40, 41, 42, 43, 44, 47, 58, 59, 61, 63, 64, 91, 93]

/-- Test whether a byte is a reserved URI character. -/
def isReservedByte (b : Nat) : Bool := reservedBytes.contains b

/-! ## Helper lemmas -/

theorem exceptBind_ok {α β : Type} (a : α) (f : α → Except PyExn β) :
    (Except.ok a >>= f : Except PyExn β) = f a := rfl

theorem exceptBind_error {α β : Type} (e : PyExn) (f : α → Except PyExn β) :
    (Except.error e >>= f : Except PyExn β) = Except.error e := rfl

theorem exceptPure {α : Type} (a : α) : (pure a : Except PyExn α) = Except.ok a := rfl

theorem create_file_result_eq_branches :
    create_gitlab_file_result = gitlab_list_branches_result := rfl

theorem list_commits_result_eq_branches :
    list_gitlab_repository_commits_result = gitlab_list_branches_result := rfl

/-- Standard response shaping at a transport failure. -/
theorem std_result_transport (m : String) :
    gitlab_list_branches_result (Outcome.transportError m) =
      .ok (jobj [("error", jstr ("Network/Request Error: " ++ m))]) := rfl

/-- Standard response shaping at a failing status with a JSON body. -/
theorem std_result_httpfail_json (s : Nat) (j : JValue) (t : String)
    (h1 : 400 ≤ s) (h2 : s < 600) :
    gitlab_list_branches_result (Outcome.response ⟨s, some j, t⟩) =
      .ok (jobj [("error", jstr (strHTTPError ⟨s, some j, t⟩)), ("details", j)]) := by
  simp [gitlab_list_branches_result, pyTry, requestsCall, raiseForStatus, responseJson,
    exceptBind_ok, exceptBind_error, exceptPure, h1, h2, List.find?,
    catchesHTTPError, exnResponse]

/-- Standard response shaping at a failing status with a non-JSON body. -/
theorem std_result_httpfail_nojson (s : Nat) (t : String)
    (h1 : 400 ≤ s) (h2 : s < 600) :
    gitlab_list_branches_result (Outcome.response ⟨s, none, t⟩) =
      .ok (jobj [("error", jstr (strHTTPError ⟨s, none, t⟩)), ("details", jstr t)]) := by
  simp [gitlab_list_branches_result, pyTry, requestsCall, raiseForStatus, responseJson,
    exceptBind_ok, exceptBind_error, exceptPure, h1, h2, List.find?,
    catchesHTTPError, catchesJSONDecodeError, exnResponse]

/-- Standard response shaping at a passing status with a JSON body. -/
theorem std_result_pass_json (s : Nat) (j : JValue) (t : String)
    (h : ¬ (400 ≤ s ∧ s < 600)) :
    gitlab_list_branches_result (Outcome.response ⟨s, some j, t⟩) = .ok j := by
  simp [gitlab_list_branches_result, pyTry, requestsCall, raiseForStatus, responseJson,
    exceptBind_ok, exceptBind_error, exceptPure, h, List.find?]

/-- Standard response shaping at a passing status with an undecodable body:
the decode error is caught by the `RequestException` handler. -/
theorem std_result_pass_nojson (s : Nat) (t : String)
    (h : ¬ (400 ≤ s ∧ s < 600)) :
    gitlab_list_branches_result (Outcome.response ⟨s, none, t⟩) =
      .ok (jobj [("error", jstr ("Network/Request Error: " ++ exnStr PyExn.jsonDecodeError))]) := by
  simp [gitlab_list_branches_result, pyTry, requestsCall, raiseForStatus, responseJson,
    exceptBind_ok, exceptBind_error, exceptPure, h, List.find?,
    catchesHTTPError, catchesRequestException]

/-- Delete-branch response shaping at a transport failure. -/
theorem delete_branch_transport (bn m : String) :
    gitlab_delete_branch_result bn (Outcome.transportError m) =
      .ok (jobj [("error", jstr ("Network/Request Error: " ++ m))]) := rfl

/-- Delete-branch response shaping at a failing status. -/
theorem delete_branch_httpfail (bn : String) (r : HttpResponse)
    (h1 : 400 ≤ r.status) (h2 : r.status < 600) :
    resultHasErrorKey (gitlab_delete_branch_result bn (Outcome.response r)) = true := by
  cases hj : r.jsonBody <;>
    simp [gitlab_delete_branch_result, pyTry, requestsCall, raiseForStatus, responseJson,
      exceptBind_ok, exceptBind_error, exceptPure, h1, h2, hj, List.find?,
      catchesHTTPError, catchesJSONDecodeError, exnResponse, resultHasErrorKey,
      hasKeyJ, hasKeyL]

/-- Delete-branch response shaping on a passing status returns a value. -/
theorem delete_branch_pass (bn : String) (r : HttpResponse)
    (h : ¬ (400 ≤ r.status ∧ r.status < 600)) :
    isOkResult (gitlab_delete_branch_result bn (Outcome.response r)) = true := by
  by_cases h204 : r.status = 204 <;>
    simp [gitlab_delete_branch_result, pyTry, requestsCall, raiseForStatus, responseJson,
      exceptBind_ok, exceptBind_error, exceptPure, h, h204, List.find?, isOkResult]

/-- Delete-file response shaping at a transport failure. -/
theorem delete_file_transport (m : String) :
    delete_gitlab_file_result (Outcome.transportError m) =
      .ok (jobj [("error", jstr ("Network/Request Error: " ++ m))]) := rfl

/-- Delete-file response shaping at a failing status. -/
theorem delete_file_httpfail (r : HttpResponse)
    (h1 : 400 ≤ r.status) (h2 : r.status < 600) :
    resultHasErrorKey (delete_gitlab_file_result (Outcome.response r)) = true := by
  cases hj : r.jsonBody <;>
    simp [delete_gitlab_file_result, pyTry, requestsCall, raiseForStatus, responseJson,
      exceptBind_ok, exceptBind_error, exceptPure, h1, h2, hj, List.find?,
      catchesHTTPError, catchesJSONDecodeError, exnResponse, resultHasErrorKey,
      hasKeyJ, hasKeyL]

/-- Delete-file response shaping on a passing status returns a value. -/
theorem delete_file_pass (r : HttpResponse)
    (h : ¬ (400 ≤ r.status ∧ r.status < 600)) :
    isOkResult (delete_gitlab_file_result (Outcome.response r)) = true := by
  by_cases h204 : r.status = 204
  · simp [delete_gitlab_file_result, pyTry, requestsCall, raiseForStatus, responseJson,
      exceptBind_ok, exceptBind_error, exceptPure, h, h204, List.find?, isOkResult]
  · cases hj : r.jsonBody <;>
      simp [delete_gitlab_file_result, pyTry, requestsCall, raiseForStatus, responseJson,
        exceptBind_ok, exceptBind_error, exceptPure, h, h204, hj, List.find?,
        catchesHTTPError, catchesRequestException, isOkResult]

/-- Raw-file response shaping at a transport failure. -/
theorem get_raw_transport (m : String) :
    get_raw_gitlab_file_result (Outcome.transportError m) =
      .ok (jobj [("error", jstr ("Network/Request Error: " ++ m))]) := rfl

/-- Raw-file response shaping at a failing status. -/
theorem get_raw_httpfail (r : HttpResponse)
    (h1 : 400 ≤ r.status) (h2 : r.status < 600) :
    resultHasErrorKey (get_raw_gitlab_file_result (Outcome.response r)) = true := by
  cases hj : r.jsonBody <;>
    simp [get_raw_gitlab_file_result, pyTry, requestsCall, raiseForStatus, responseJson,
      exceptBind_ok, exceptBind_error, exceptPure, h1, h2, hj, List.find?,
      catchesHTTPError, catchesJSONDecodeError, exnResponse, resultHasErrorKey,
      hasKeyJ, hasKeyL]

/-- Raw-file response shaping on a passing status returns the raw text. -/
theorem get_raw_pass (r : HttpResponse)
    (h : ¬ (400 ≤ r.status ∧ r.status < 600)) :
    get_raw_gitlab_file_result (Outcome.response r) = .ok (jstr r.text) := by
  simp [get_raw_gitlab_file_result, pyTry, requestsCall, raiseForStatus,
    exceptBind_ok, exceptBind_error, exceptPure, h, List.find?]

/-! ## Claim theorems -/

/-- Claim C8: for both modelled delete-type façades (`gitlab_delete_branch`
and `delete_gitlab_file`), an HTTP 204 response — whatever its body, even an
undecodable empty one — yields a locally synthesized success confirmation,
and the result never depends on decoding the body. -/
theorem claim_C8_delete_204_synthesized :
    (∀ (bn : String) (jb : Option JValue) (t : String),
      gitlab_delete_branch_result bn (Outcome.response ⟨204, jb, t⟩) =
        .ok (jstr ("[GITLAB DELETE BRANCH] Branch \x27" ++ bn ++
          "\x27 deleted successfully (HTTP 204 No Content).")) ) ∧
    (∀ (jb : Option JValue) (t : String),
      delete_gitlab_file_result (Outcome.response ⟨204, jb, t⟩) =
        .ok (jobj [("status", jstr "success"),
          ("message", jstr "File deleted successfully (No Content returned)")])) :=
  ⟨fun _ _ _ => rfl, fun _ _ => rfl⟩

/-- Claim C2, counterexample: at a transport failure the façade returns a
dictionary holding only an `error` key — the `details` key is absent, so the
claimed `{error, details}` shape with a never-absent `details` is false. -/
theorem claim_C2_counterexample :
    gitlab_list_branches_result (Outcome.transportError "Connection refused") =
      .ok (jobj [("error", jstr "Network/Request Error: Connection refused")]) ∧
    hasKeyJ (jobj [("error", jstr "Network/Request Error: Connection refused")])
      "details" = false :=
  ⟨rfl, rfl⟩

/-- Claim C2 as amended: for the cited façades (`gitlab_list_branches` and
`list_gitlab_repository_commits`), a non-2xx response with a JSON body yields
`{error, details = decoded JSON}`; a non-2xx response with a non-JSON body
yields `{error, details = raw text}`; a transport failure yields `{error}`
alone, with the synthesized network-error description inside the `error`
string and no `details` key. -/
theorem claim_C2_detail_fallback :
    (∀ m, gitlab_list_branches_result (Outcome.transportError m) =
      .ok (jobj [("error", jstr ("Network/Request Error: " ++ m))])) ∧
    (∀ s (j : JValue) t, 400 ≤ s → s < 600 →
      gitlab_list_branches_result (Outcome.response ⟨s, some j, t⟩) =
        .ok (jobj [("error", jstr (strHTTPError ⟨s, some j, t⟩)), ("details", j)])) ∧
    (∀ s t, 400 ≤ s → s < 600 →
      gitlab_list_branches_result (Outcome.response ⟨s, none, t⟩) =
        .ok (jobj [("error", jstr (strHTTPError ⟨s, none, t⟩)), ("details", jstr t)])) ∧
    (∀ m, list_gitlab_repository_commits_result (Outcome.transportError m) =
      .ok (jobj [("error", jstr ("Network/Request Error: " ++ m))])) ∧
    (∀ s (j : JValue) t, 400 ≤ s → s < 600 →
      list_gitlab_repository_commits_result (Outcome.response ⟨s, some j, t⟩) =
        .ok (jobj [("error", jstr (strHTTPError ⟨s, some j, t⟩)), ("details", j)])) ∧
    (∀ s t, 400 ≤ s → s < 600 →
      list_gitlab_repository_commits_result (Outcome.response ⟨s, none, t⟩) =
        .ok (jobj [("error", jstr (strHTTPError ⟨s, none, t⟩)), ("details", jstr t)])) := by
  refine ⟨std_result_transport, ?_, ?_, ?_, ?_, ?_⟩
  · intro s j t h1 h2; exact std_result_httpfail_json s j t h1 h2
  · intro s t h1 h2; exact std_result_httpfail_nojson s t h1 h2
  · intro m; rw [list_commits_result_eq_branches]; exact std_result_transport m
  · intro s j t h1 h2; rw [list_commits_result_eq_branches]
    exact std_result_httpfail_json s j t h1 h2
  · intro s t h1 h2; rw [list_commits_result_eq_branches]
    exact std_result_httpfail_nojson s t h1 h2

/-- Witness for claim C2's amended theorem at status 404 with a JSON body. -/
theorem claim_C2_witness :
    (400 ≤ 404 ∧ 404 < 600) ∧
    gitlab_list_branches_result
        (Outcome.response ⟨404, some (jobj [("message", jstr "404 Not Found")]), "raw"⟩) =
      .ok (jobj [("error", jstr (strHTTPError ⟨404, some (jobj [("message", jstr "404 Not Found")]), "raw"⟩)),
        ("details", jobj [("message", jstr "404 Not Found")])]) :=
  ⟨⟨by decide, by decide⟩,
    claim_C2_detail_fallback.2.1 404 (jobj [("message", jstr "404 Not Found")]) "raw"
      (by decide) (by decide)⟩

/-- Claim C6: `set_gitlab_config` overwrites only the fields given truthy
values: it is idempotent, and a subsequent call with `token=None` preserves a
previously stored non-empty token. -/
theorem claim_C6_set_overwrites_only_given :
    (∀ (c : Config) (a b : Option String),
      set_gitlab_config a b (set_gitlab_config a b c) = set_gitlab_config a b c) ∧
    (∀ (c : Config) (a : Option String) (b : String), b ≠ "" →
      (set_gitlab_config a none (set_gitlab_config a (some b) c)).token = b) := by
  constructor
  · intro c a b
    by_cases ha : truthyOptStr a = true <;> by_cases hb : truthyOptStr b = true <;>
      simp [set_gitlab_config, ha, hb]
  · intro c a b hb
    have hb' : truthyOptStr (some b) = true := by simp [truthyOptStr, hb]
    have h0 : truthyOptStr none = false := rfl
    by_cases ha : truthyOptStr a = true <;>
      simp [set_gitlab_config, ha, hb', h0]

/-- Witness for claim C6 at a concrete configuration and token. -/
theorem claim_C6_witness :
    ("tok" : String) ≠ "" ∧
    (set_gitlab_config (some "https://u") none
      (set_gitlab_config (some "https://u") (some "tok") ⟨"", ""⟩)).token = "tok" :=
  ⟨by decide,
    claim_C6_set_overwrites_only_given.2 ⟨"", ""⟩ (some "https://u") "tok" (by decide)⟩

/-- Claim C7: calling `configure_gitlab` with a non-empty token and the
`api_url` parameter left at its default overwrites any previously stored
custom base URL with the hard-coded default, because the parameter defaults
to that string rather than to an absent sentinel. -/
theorem claim_C7_configure_clobbers_base_url :
    ∀ (c : Config) (t : String), t ≠ "" → c.api_url ≠ "" →
      ((configure_gitlab configure_gitlab_default_api_url (some t) c).1).api_url =
        configure_gitlab_default_api_url := by
  intro c t ht _
  have ht' : truthyOptStr (some t) = true := by simp [truthyOptStr, ht]
  simp [configure_gitlab, ht', set_gitlab_config, truthyOptStr, ht,
    configure_gitlab_default_api_url]

/-- Witness for claim C7: a stored custom base URL is replaced by the
default. -/
theorem claim_C7_witness :
    ("newtoken" : String) ≠ "" ∧
    (⟨"https://my.gitlab.example/api/v4", "old"⟩ : Config).api_url ≠ "" ∧
    ((configure_gitlab configure_gitlab_default_api_url (some "newtoken")
        ⟨"https://my.gitlab.example/api/v4", "old"⟩).1).api_url =
      configure_gitlab_default_api_url :=
  ⟨by decide, by decide,
    claim_C7_configure_clobbers_base_url ⟨"https://my.gitlab.example/api/v4", "old"⟩
      "newtoken" (by decide) (by decide)⟩

/-- Claim C10: `check_gitlab_config` never reveals the token value — any two
configurations agreeing on the base URL and on whether the token is empty
produce identical reports. -/
theorem claim_C10_token_noninterference :
    ∀ c1 c2 : Config, c1.api_url = c2.api_url → (c1.token = "" ↔ c2.token = "") →
      check_gitlab_config c1 = check_gitlab_config c2 := by
  intro c1 c2 hu ht
  have hb : (c1.token != "") = (c2.token != "") := by
    by_cases h : c1.token = ""
    · have h2 := ht.mp h
      simp [h, h2]
    · have h2 : ¬ c2.token = "" := fun hh => h (ht.mpr hh)
      have e1 : (c1.token != "") = true := by simp [h]
      have e2 : (c2.token != "") = true := by simp [h2]
      rw [e1, e2]
  simp [check_gitlab_config, is_configured, hu, hb]

/-- Witness for claim C10: two configurations differing only in their
non-empty token values report identically. -/
theorem claim_C10_witness :
    (⟨"https://u", "secret-a"⟩ : Config).api_url = (⟨"https://u", "secret-b"⟩ : Config).api_url ∧
    check_gitlab_config ⟨"https://u", "secret-a"⟩ =
      check_gitlab_config ⟨"https://u", "secret-b"⟩ :=
  ⟨rfl, claim_C10_token_noninterference ⟨"https://u", "secret-a"⟩ ⟨"https://u", "secret-b"⟩
    rfl (by decide)⟩

/-- A result holding an error key was returned normally. -/
theorem errKey_isOk (x : Except PyExn JValue) (h : resultHasErrorKey x = true) :
    isOkResult x = true := by
  cases x <;> simp_all [resultHasErrorKey, isOkResult]

/-- Every outcome of the standard response shaping is a returned value. -/
theorem std_result_isOk (net : Outcome) :
    isOkResult (gitlab_list_branches_result net) = true := by
  cases net with
  | transportError m => rw [std_result_transport]; rfl
  | response r =>
    cases r with
    | mk s jb t =>
      by_cases h : 400 ≤ s ∧ s < 600
      · cases jb with
        | some j => rw [std_result_httpfail_json s j t h.1 h.2]; rfl
        | none => rw [std_result_httpfail_nojson s t h.1 h.2]; rfl
      · cases jb with
        | some j => rw [std_result_pass_json s j t h]; rfl
        | none => rw [std_result_pass_nojson s t h]; rfl

/-- Every failing outcome of the standard response shaping carries an
`error` key. -/
theorem std_result_errKey (net : Outcome) (hf : anyFailureOutcome net = true) :
    resultHasErrorKey (gitlab_list_branches_result net) = true := by
  cases net with
  | transportError m => rw [std_result_transport]; rfl
  | response r =>
    cases r with
    | mk s jb t =>
      by_cases h : 400 ≤ s ∧ s < 600
      · cases jb with
        | some j => rw [std_result_httpfail_json s j t h.1 h.2]; rfl
        | none => rw [std_result_httpfail_nojson s t h.1 h.2]; rfl
      · cases jb with
        | some j =>
          exfalso
          simp [anyFailureOutcome] at hf
          exact h hf
        | none => rw [std_result_pass_nojson s t h]; rfl

/-- Claim C1 as amended: the six modelled `requests`-based façades
(`gitlab_list_branches`, `create_gitlab_file`,
`list_gitlab_repository_commits`, `gitlab_delete_branch`,
`delete_gitlab_file`, `get_raw_gitlab_file`) return a value on every outcome
(no exception escapes), and every failing outcome (transport failure,
failing status, or — for the payload-decoding façades — an undecodable body)
yields a dictionary with an `error` key. The claim's universal quantification
fails elsewhere: the async `httpx`-based `create_repository` raises on its
failure paths (shown for an empty repository name on any outcome), and
`get_gitlab_commit_signature` leaks an uncaught `AttributeError` from its
404 handler when the decoded error body is not an object or its `message`
value is not a string, although it conforms on its other failure paths. -/
theorem claim_C1_error_shape :
    (∀ net, isOkResult (gitlab_list_branches_result net) = true) ∧
    (∀ net, anyFailureOutcome net = true →
      resultHasErrorKey (gitlab_list_branches_result net) = true) ∧
    (∀ net, isOkResult (create_gitlab_file_result net) = true) ∧
    (∀ net, anyFailureOutcome net = true →
      resultHasErrorKey (create_gitlab_file_result net) = true) ∧
    (∀ net, isOkResult (list_gitlab_repository_commits_result net) = true) ∧
    (∀ net, anyFailureOutcome net = true →
      resultHasErrorKey (list_gitlab_repository_commits_result net) = true) ∧
    (∀ bn net, isOkResult (gitlab_delete_branch_result bn net) = true) ∧
    (∀ bn net, httpFailureOutcome net = true →
      resultHasErrorKey (gitlab_delete_branch_result bn net) = true) ∧
    (∀ net, isOkResult (delete_gitlab_file_result net) = true) ∧
    (∀ net, httpFailureOutcome net = true →
      resultHasErrorKey (delete_gitlab_file_result net) = true) ∧
    (∀ net, isOkResult (get_raw_gitlab_file_result net) = true) ∧
    (∀ net, httpFailureOutcome net = true →
      resultHasErrorKey (get_raw_gitlab_file_result net) = true) ∧
    (∀ d v i net, isOkResult (create_repository_result "" d v i net) = false) ∧
    (∀ t, isOkResult (get_gitlab_commit_signature_result
      (Outcome.response ⟨404, some (jarr []), t⟩)) = false) ∧
    (∀ (n : Int) (t : String), isOkResult (get_gitlab_commit_signature_result
      (Outcome.response ⟨404, some (jobj [("message", jnum n)]), t⟩)) = false) ∧
    (∀ t, resultHasErrorKey (get_gitlab_commit_signature_result
      (Outcome.response ⟨404,
        some (jobj [("message", jstr "404 GPG Signature Not Found")]), t⟩)) = true) ∧
    (∀ s (jb : Option JValue) t, 400 ≤ s → s < 600 → s ≠ 404 →
      resultHasErrorKey (get_gitlab_commit_signature_result
        (Outcome.response ⟨s, jb, t⟩)) = true) ∧
    (∀ m, get_gitlab_commit_signature_result (Outcome.transportError m) =
      .ok (jobj [("error", jstr ("Network/Request Error: " ++ m))])) := by
  refine ⟨std_result_isOk, std_result_errKey, ?_, ?_, ?_, ?_, ?_, ?_, ?_, ?_, ?_, ?_,
    ?_, ?_, ?_, ?_, ?_, ?_⟩
  · intro net; rw [create_file_result_eq_branches]; exact std_result_isOk net
  · intro net hf; rw [create_file_result_eq_branches]; exact std_result_errKey net hf
  · intro net; rw [list_commits_result_eq_branches]; exact std_result_isOk net
  · intro net hf; rw [list_commits_result_eq_branches]; exact std_result_errKey net hf
  · intro bn net
    cases net with
    | transportError m => rw [delete_branch_transport]; rfl
    | response r =>
      by_cases h : 400 ≤ r.status ∧ r.status < 600
      · exact errKey_isOk _ (delete_branch_httpfail bn r h.1 h.2)
      · exact delete_branch_pass bn r h
  · intro bn net hf
    cases net with
    | transportError m => rw [delete_branch_transport]; rfl
    | response r =>
      simp [httpFailureOutcome] at hf
      exact delete_branch_httpfail bn r hf.1 hf.2
  · intro net
    cases net with
    | transportError m => rw [delete_file_transport]; rfl
    | response r =>
      by_cases h : 400 ≤ r.status ∧ r.status < 600
      · exact errKey_isOk _ (delete_file_httpfail r h.1 h.2)
      · exact delete_file_pass r h
  · intro net hf
    cases net with
    | transportError m => rw [delete_file_transport]; rfl
    | response r =>
      simp [httpFailureOutcome] at hf
      exact delete_file_httpfail r hf.1 hf.2
  · intro net
    cases net with
    | transportError m => rw [get_raw_transport]; rfl
    | response r =>
      by_cases h : 400 ≤ r.status ∧ r.status < 600
      · exact errKey_isOk _ (get_raw_httpfail r h.1 h.2)
      · rw [get_raw_pass r h]; rfl
  · intro net hf
    cases net with
    | transportError m => rw [get_raw_transport]; rfl
    | response r =>
      simp [httpFailureOutcome] at hf
      exact get_raw_httpfail r hf.1 hf.2
  · intro d v i net; rfl
  · intro t; rfl
  · intro n t; rfl
  · intro t
    simp [get_gitlab_commit_signature_result, pyTry, requestsCall, raiseForStatus,
      responseJson, exceptBind_ok, exceptBind_error, exceptPure, List.find?,
      catchesHTTPError, catchesJSONDecodeError, exnResponse, jGetDefault, pyLower,
      resultHasErrorKey, hasKeyJ, hasKeyL]
    by_cases hL :
        "404 GPG Signature Not Found".toLower = "404 gpg signature not found" <;>
      simp [hL]
  · intro s jb t h1 h2 hne
    cases jb with
    | none =>
      simp [get_gitlab_commit_signature_result, pyTry, requestsCall, raiseForStatus,
        responseJson, exceptBind_ok, exceptBind_error, exceptPure, h1, h2, hne,
        List.find?, catchesHTTPError, catchesJSONDecodeError, exnResponse,
        resultHasErrorKey, hasKeyJ, hasKeyL]
    | some j =>
      simp [get_gitlab_commit_signature_result, pyTry, requestsCall, raiseForStatus,
        responseJson, exceptBind_ok, exceptBind_error, exceptPure, h1, h2, hne,
        List.find?, catchesHTTPError, catchesJSONDecodeError, exnResponse,
        resultHasErrorKey, hasKeyJ, hasKeyL]
  · intro m; rfl

/-- Claim C1, counterexample: the `create_repository` façade lets an
exception escape — with an empty name, its validation error is re-raised as
a wrapped `Exception` rather than returned. -/
theorem claim_C1_counterexample :
    create_repository_result "" none create_repository_default_visibility
        create_repository_default_initialize_with_readme
        (Outcome.transportError "gitlab.com unreachable") =
      Except.error (PyExn.exception
        "Parameter validation error: Repository name is required") := rfl

/-- Witness for claim C1's amended theorem at a concrete transport failure. -/
theorem claim_C1_witness :
    anyFailureOutcome (Outcome.transportError "timeout") = true ∧
    resultHasErrorKey (gitlab_list_branches_result
      (Outcome.transportError "timeout")) = true :=
  ⟨rfl, claim_C1_error_shape.2.1 (Outcome.transportError "timeout") rfl⟩

/-- Claim C3, counterexample: with an empty configured token,
`gitlab_list_branches` still sends a `PRIVATE-TOKEN` header (bound to the
empty string) and sends no `Accept` header — contradicting the claimed
header map for outbound tool requests. -/
theorem claim_C3_counterexample :
    gitlab_list_branches_headers ⟨"https://gitlab.example.com/api/v4", ""⟩ =
      [("PRIVATE-TOKEN", "")] ∧
    (gitlab_list_branches_headers ⟨"https://gitlab.example.com/api/v4", ""⟩).any
      (fun p => p.1 == "Accept") = false :=
  ⟨rfl, rfl⟩

/-- Claim C3 as amended: `get_headers` alone produces exactly
`{Accept: application/json}` plus `PRIVATE-TOKEN` when the token is
non-empty; the tool façades build their own headers instead —
`gitlab_list_branches` sends `PRIVATE-TOKEN` unconditionally (even empty)
with no `Accept`, `list_gitlab_repository_commits` sends `PRIVATE-TOKEN`
only when the token is non-empty with no `Accept`, and `create_gitlab_file`
sends an unconditional `PRIVATE-TOKEN` plus `Content-Type`. -/
theorem claim_C3_header_maps :
    (∀ c : Config, c.token = "" → get_headers c = [("Accept", "application/json")]) ∧
    (∀ c : Config, c.token ≠ "" →
      get_headers c = [("Accept", "application/json"), ("PRIVATE-TOKEN", c.token)]) ∧
    (∀ c : Config, gitlab_list_branches_headers c = [("PRIVATE-TOKEN", c.token)]) ∧
    (∀ c : Config,
      (gitlab_list_branches_headers c).any (fun p => p.1 == "Accept") = false) ∧
    (∀ c : Config, c.token = "" → list_gitlab_repository_commits_headers c = []) ∧
    (∀ c : Config, c.token ≠ "" →
      list_gitlab_repository_commits_headers c = [("PRIVATE-TOKEN", c.token)]) ∧
    (∀ c : Config, create_gitlab_file_headers c =
      [("PRIVATE-TOKEN", c.token), ("Content-Type", "application/json")]) := by
  refine ⟨?_, ?_, ?_, ?_, ?_, ?_, ?_⟩
  · intro c h; simp [get_headers, h]
  · intro c h; simp [get_headers, h]
  · intro c; rfl
  · intro c; simp [gitlab_list_branches_headers]
  · intro c h; simp [list_gitlab_repository_commits_headers, get_gitlab_token, h]
  · intro c h; simp [list_gitlab_repository_commits_headers, get_gitlab_token, h]
  · intro c; rfl

/-- Witness for claim C3's amended theorem at an empty and a non-empty
token. -/
theorem claim_C3_witness :
    (⟨"https://u", ""⟩ : Config).token = "" ∧
    get_headers ⟨"https://u", ""⟩ = [("Accept", "application/json")] ∧
    (⟨"https://u", "tok"⟩ : Config).token ≠ "" ∧
    get_headers ⟨"https://u", "tok"⟩ =
      [("Accept", "application/json"), ("PRIVATE-TOKEN", "tok")] :=
  ⟨rfl, claim_C3_header_maps.1 ⟨"https://u", ""⟩ rfl, by decide,
    claim_C3_header_maps.2.1 ⟨"https://u", "tok"⟩ (by decide)⟩

theorem hasKeyL_append (xs ys : List (String × JValue)) (k : String) :
    hasKeyL (xs ++ ys) k = (hasKeyL xs k || hasKeyL ys k) := by
  simp [hasKeyL, List.any_append]

theorem hasKeyL_bodyOptStr (k k2 : String) (v : Option String) :
    hasKeyL (bodyOptStr k v) k2 = (v.isSome && (k == k2)) := by
  cases v <;> simp [bodyOptStr, hasKeyL]

theorem hasKeyL_bodyOptBool (k k2 : String) (v : Option Bool) :
    hasKeyL (bodyOptBool k v) k2 = (v.isSome && (k == k2)) := by
  cases v <;> simp [bodyOptBool, hasKeyL]

theorem hasKeyL_bodyOptInt (k k2 : String) (v : Option Int) :
    hasKeyL (bodyOptInt k v) k2 = (v.isSome && (k == k2)) := by
  cases v <;> simp [bodyOptInt, hasKeyL]

theorem hasKeyL_bodyOptIntList (k k2 : String) (v : Option (List Int)) :
    hasKeyL (bodyOptIntList k v) k2 = (v.isSome && (k == k2)) := by
  cases v <;> simp [bodyOptIntList, hasKeyL]

/-- Claim C4, counterexample: in `create_gitlab_file` the optional arguments
`encoding` and `execute_filemode`, left at their declared defaults (i.e. not
supplied by the caller), still appear as keys of the outgoing JSON body —
contradicting "an optional argument left absent never appears". -/
theorem claim_C4_counterexample :
    hasKeyL (create_gitlab_file_data "main" "add file" "content" none none
        create_gitlab_file_default_encoding
        create_gitlab_file_default_execute_filemode none)
      "execute_filemode" = true ∧
    hasKeyL (create_gitlab_file_data "main" "add file" "content" none none
        create_gitlab_file_default_encoding
        create_gitlab_file_default_execute_filemode none)
      "encoding" = true :=
  ⟨rfl, rfl⟩

/-- Claim C4 as amended: façades that test is-not-None (`edit_issue`) omit
absent optional arguments and still send falsy-but-meaningful values
(`labels=""` to clear labels, `confidential=False`); `gitlab_list_branches`
omits absent arguments but also drops explicitly-empty strings (truthiness
test); `create_gitlab_file`, however, always writes `encoding` and
`execute_filemode` into the body, even when they are left absent. -/
theorem claim_C4_parameter_omission :
    (gitlab_list_branches_params none none = []) ∧
    (gitlab_list_branches_params (some "") (some "") = []) ∧
    (∀ s : String, s ≠ "" →
      gitlab_list_branches_params (some s) none = [("regex", pyStr s)]) ∧
    (∀ a1 a2 a3 a4 a5 a6 a7 a8 a10 a11 a12 a13 a14 a15,
      hasKeyL (edit_issue_data a1 a2 a3 a4 a5 a6 a7 a8 none a10 a11 a12 a13 a14 a15)
        "labels" = false) ∧
    (∀ a1 a2 a3 a4 a5 a6 a7 a8 a10 a11 a12 a13 a14 a15 (l : String),
      ("labels", jstr l) ∈
        edit_issue_data a1 a2 a3 a4 a5 a6 a7 a8 (some l) a10 a11 a12 a13 a14 a15) ∧
    (∀ a1 a2 a4 a5 a6 a7 a8 a9 a10 a11 a12 a13 a14 a15 (b : Bool),
      ("confidential", jbool b) ∈
        edit_issue_data a1 a2 (some b) a4 a5 a6 a7 a8 a9 a10 a11 a12 a13 a14 a15) ∧
    (∀ (br m ct : String) (e : Option String) (x : Option Bool),
      hasKeyL (create_gitlab_file_data br m ct none none e x none)
        "execute_filemode" = true) := by
  refine ⟨rfl, rfl, ?_, ?_, ?_, ?_, ?_⟩
  · intro s h
    have h' : truthyOptStr (some s) = true := by simp [truthyOptStr, h]
    simp [gitlab_list_branches_params, h']
  · intro a1 a2 a3 a4 a5 a6 a7 a8 a10 a11 a12 a13 a14 a15
    simp [edit_issue_data, hasKeyL_append, hasKeyL_bodyOptStr, hasKeyL_bodyOptBool,
      hasKeyL_bodyOptInt, hasKeyL_bodyOptIntList]
  · intro a1 a2 a3 a4 a5 a6 a7 a8 a10 a11 a12 a13 a14 a15 l
    simp [edit_issue_data, bodyOptStr, List.mem_append]
  · intro a1 a2 a4 a5 a6 a7 a8 a9 a10 a11 a12 a13 a14 a15 b
    simp [edit_issue_data, bodyOptBool, List.mem_append]
  · intro br m ct e x
    simp [create_gitlab_file_data, hasKeyL_append, hasKeyL, List.any_append]

/-- Witness for claim C4's amended theorem: a non-empty regex is sent, and
an explicitly-empty `labels` string (clearing all labels) is still sent by
`edit_issue`. -/
theorem claim_C4_witness :
    ("feature" : String) ≠ "" ∧
    gitlab_list_branches_params (some "feature") none = [("regex", pyStr "feature")] ∧
    ("labels", jstr "") ∈
      edit_issue_data none none none none none none none none (some "") none
        none none none none none :=
  ⟨by decide, claim_C4_parameter_omission.2.2.1 "feature" (by decide),
    claim_C4_parameter_omission.2.2.2.2.1 none none none none none none none none
      none none none none none none ""⟩

/-- Claim C5, counterexample: `get_raw_gitlab_file` places its boolean `lfs`
argument into the query-parameter map as a raw boolean, not as the lowercase
string — contradicting the claimed universal query-string encoding. -/
theorem claim_C5_counterexample :
    ("lfs", pyBool false) ∈ get_raw_gitlab_file_params "main" false ∧
    ("lfs", pyStr "false") ∉ get_raw_gitlab_file_params "main" false := by
  constructor
  · simp [get_raw_gitlab_file_params]
  · simp [get_raw_gitlab_file_params]

/-- Claim C5 as amended: booleans added through the explicit converters are
lowercase strings in query maps (`list_gitlab_repository_commits`), and
`create_gitlab_file` sends `execute_filemode` as a native JSON boolean; but
`get_raw_gitlab_file` places its raw boolean into the query map unconverted,
and `create_gitlab_commit` stringifies its body booleans (`force`, `stats`)
instead of sending native JSON booleans. -/
theorem claim_C5_boolean_encoding :
    (∀ b : Bool, list_gitlab_repository_commits_params (some b) none none none
        none none none none none none none none = [("all", pyStr (pyBoolLower b))]) ∧
    (∀ b : Bool, list_gitlab_repository_commits_params none none none none
        none none none (some b) none none none none =
        [("trailers", pyStr (pyBoolLower b))]) ∧
    (∀ (br m ct : String) (b : Bool),
      ("execute_filemode", jbool b) ∈
        create_gitlab_file_data br m ct none none none (some b) none) ∧
    (∀ (ref : String) (b : Bool),
      get_raw_gitlab_file_params ref b = [("ref", pyStr ref), ("lfs", pyBool b)]) ∧
    (∀ (br cm : String) (b : Bool),
      ("force", jstr (pyBoolLower b)) ∈
        create_gitlab_commit_payload br cm [] none none (some b) none none none none) ∧
    (∀ (br cm : String) (b : Bool),
      ("stats", jstr (pyBoolLower b)) ∈
        create_gitlab_commit_payload br cm [] none none none none none none (some b)) := by
  refine ⟨?_, ?_, ?_, ?_, ?_, ?_⟩
  · intro b; rfl
  · intro b; rfl
  · intro br m ct b
    simp [create_gitlab_file_data, jOfOptBool, List.mem_append]
  · intro ref b; rfl
  · intro br cm b
    simp [create_gitlab_commit_payload, bodyOptBoolAsStr, List.mem_append]
  · intro br cm b
    simp [create_gitlab_commit_payload, bodyOptBoolAsStr, List.mem_append]

/-- Claim C9, counterexample: `update_gitlab_submodule_reference` takes a
file-system path argument and interpolates it into the URL without encoding
— its reserved `/` characters appear raw, where `quote_plus` would have
produced `%2F`. -/
theorem claim_C9_counterexample :
    update_gitlab_submodule_reference_api_url
        ⟨"https://gitlab.example.com/api/v4", "tok"⟩ "1" "lib/modules/example" =
      "https://gitlab.example.com/api/v4/projects/1/repository/submodules/lib/modules/example" ∧
    pyQuotePlus (asciiBytes "lib/modules/example") = "lib%2Fmodules%2Fexample" ∧
    update_gitlab_submodule_reference_api_url
        ⟨"https://gitlab.example.com/api/v4", "tok"⟩ "1" "lib/modules/example" ≠
      "https://gitlab.example.com/api/v4/projects/1/repository/submodules/lib%2Fmodules%2Fexample" := by
  refine ⟨rfl, by decide, by decide⟩

/-- Claim C9 as amended: the file-tools façades insert the file path only
through `quote_plus`, under which every reserved URI byte of the original
path is emitted percent-encoded (three characters headed by `%`); the
submodule-update façade, by contrast, inserts its path argument raw (see the
counterexample). -/
theorem claim_C9_file_path_encoding :
    (∀ b, isReservedByte b = true → quotePlusByte b = percentEncodeByte b) ∧
    (∀ b, isReservedByte b = true →
      (percentEncodeByte b).data.head? = some '%') ∧
    (∀ (c : Config) (pid : String) (fp : List Nat),
      create_gitlab_file_api_url c pid fp =
        get_gitlab_api c ++ "/projects/" ++ pid ++ "/repository/files/" ++
          pyQuotePlus fp) ∧
    (∀ (c : Config) (pid : String) (fp : List Nat),
      get_gitlab_file_metadata_and_content_api_url c pid fp =
        get_gitlab_api c ++ "/projects/" ++ pid ++ "/repository/files/" ++
          pyQuotePlus fp) := by
  refine ⟨?_, ?_, fun _ _ _ => rfl, fun _ _ _ => rfl⟩
  · intro b h
    simp [isReservedByte, reservedBytes, List.contains] at h
    rcases h with rfl | rfl | rfl | rfl | rfl | rfl | rfl | rfl | rfl | rfl | rfl |
      rfl | rfl | rfl | rfl | rfl | rfl | rfl <;> rfl
  · intro b h
    simp [isReservedByte, reservedBytes, List.contains] at h
    rcases h with rfl | rfl | rfl | rfl | rfl | rfl | rfl | rfl | rfl | rfl | rfl |
      rfl | rfl | rfl | rfl | rfl | rfl | rfl <;> rfl

/-- Witness for claim C9's amended theorem at the slash byte. -/
theorem claim_C9_witness :
    isReservedByte 47 = true ∧
    quotePlusByte 47 = percentEncodeByte 47 ∧
    (percentEncodeByte 47).data.head? = some '%' :=
  ⟨by decide, claim_C9_file_path_encoding.1 47 (by decide),
    claim_C9_file_path_encoding.2.1 47 (by decide)⟩
